import Mathlib

/-
Verification of pymongo/write_concern.py: the WriteConcern value type, its
constructor validation, accessors, equality, and the module-level default
constant DEFAULT_WRITE_CONCERN.

Python values that can flow into the constructor are modelled by the
inductive type PyVal. The Python type system facts that matter here:
bool is a subclass of int, so isinstance(x, int) is true for booleans;
False == 0 and True == 1 hold for value equality; and the constructor
distinguishes "is None" (absence) from every other value.
-/

set_option autoImplicit false

/-- A Python runtime value, restricted to the shapes the constructor of
WriteConcern can observe: None, a bool, an int, a str, or any other object. -/
inductive PyVal where
  | none
  | bool (b : Bool)
  | int (n : Int)
  | str (s : String)
  | other
  deriving DecidableEq

/-- Python isinstance(x, int): true for int and for bool, since bool is a
subclass of int. -/
def isinstanceInt : PyVal → Bool
  | PyVal.bool _ => true
  | PyVal.int _ => true
  | _ => false

/-- Python isinstance(x, bool): true only for bool. -/
def isinstanceBool : PyVal → Bool
  | PyVal.bool _ => true
  | _ => false

/-- Python isinstance(x, str): true only for str. -/
def isinstanceStr : PyVal → Bool
  | PyVal.str _ => true
  | _ => false

/-- The integer value of a Python int or bool (False is 0, True is 1);
zero on the other constructors, where it is never consulted. -/
def intVal : PyVal → Int
  | PyVal.bool b => if b then 1 else 0
  | PyVal.int n => n
  | _ => 0

/-- Python truthiness, as used by the bare `if j and fsync` test. -/
def truthy : PyVal → Bool
  | PyVal.none => false
  | PyVal.bool b => b
  | PyVal.int n => decide (n ≠ 0)
  | PyVal.str s => decide (s ≠ "")
  | PyVal.other => true

/-- Python value equality `x == 0`: true for the int 0 and for False
(bool is an int subclass and False == 0); false on every other value. -/
def pyEqZero : PyVal → Bool
  | PyVal.int n => decide (n = 0)
  | PyVal.bool b => !b
  | _ => false

/-- A Python dict with string keys, as an insertion-ordered association list.
The dicts built by the constructor never repeat a key. -/
abbrev PyDict := List (String × PyVal)

/-- The three exception kinds the constructor can raise. -/
inductive WCError where
  | typeError (msg : String)
  | valueError (msg : String)
  | configurationError (msg : String)
  deriving DecidableEq

/-- The state of a constructed WriteConcern: the private fields __document,
__acknowledged and __server_default. -/
structure WriteConcern where
  document : PyDict
  acknowledged : Bool
  server_default : Bool
  deriving DecidableEq

/-- The wtimeout block of WriteConcern.__init__: type check, range check,
then record under key "wtimeout". -/
def wtimeoutCheck (wtimeout : PyVal) (document : PyDict) : Except WCError PyDict :=
  if wtimeout ≠ PyVal.none then
    if isinstanceInt wtimeout = false then
      Except.error (WCError.typeError "wtimeout must be an integer")
    else if intVal wtimeout < 0 then
      Except.error (WCError.valueError "wtimeout cannot be less than 0")
    else
      Except.ok (document ++ [("wtimeout", wtimeout)])
  else
    Except.ok document

/-- The j block of WriteConcern.__init__: type check, then record under
key "j". -/
def jCheck (j : PyVal) (document : PyDict) : Except WCError PyDict :=
  if j ≠ PyVal.none then
    if isinstanceBool j = false then
      Except.error (WCError.typeError "j must be True or False")
    else
      Except.ok (document ++ [("j", j)])
  else
    Except.ok document

/-- The fsync block of WriteConcern.__init__: type check, the j-and-fsync
conflict check (`if j and fsync`, on the input value of j), then record
under key "fsync". The source message contains an apostrophe, omitted here. -/
def fsyncCheck (j : PyVal) (fsync : PyVal) (document : PyDict) : Except WCError PyDict :=
  if fsync ≠ PyVal.none then
    if isinstanceBool fsync = false then
      Except.error (WCError.typeError "fsync must be True or False")
    else if truthy j ∧ truthy fsync then
      Except.error (WCError.configurationError "Cant set both j and fsync at the same time")
    else
      Except.ok (document ++ [("fsync", fsync)])
  else
    Except.ok document

/-- The `if w == 0 and j is True` conflict check of WriteConcern.__init__.
Python `w == 0` is value equality (true for the int 0 and for False) and
`j is True` is identity with the boolean True. -/
def wZeroJCheck (w : PyVal) (j : PyVal) : Except WCError Unit :=
  if pyEqZero w ∧ j = PyVal.bool true then
    Except.error (WCError.configurationError "Cannot set w to 0 and j to True")
  else
    Except.ok ()

/-- The w block of WriteConcern.__init__: for an int (including bool),
range check and set acknowledged to w > 0; for a str, accept as-is;
otherwise a type error. Record under key "w". -/
def wCheck (w : PyVal) (document : PyDict) (acknowledged : Bool) :
    Except WCError (PyDict × Bool) :=
  if w ≠ PyVal.none then
    if isinstanceInt w then
      if intVal w < 0 then
        Except.error (WCError.valueError "w cannot be less than 0")
      else
        Except.ok (document ++ [("w", w)], decide (0 < intVal w))
    else if isinstanceStr w = false then
      Except.error (WCError.typeError "w must be an integer or string")
    else
      Except.ok (document ++ [("w", w)], acknowledged)
  else
    Except.ok (document, acknowledged)

/-- WriteConcern.__init__(w, wtimeout, j, fsync): the document starts empty
and acknowledged starts True; the validation blocks run in the fixed order
wtimeout, j, fsync, the w==0-with-j conflict, then w; the first raise aborts
construction. __server_default is set to whether the document stayed empty. -/
def WriteConcern.init (w wtimeout j fsync : PyVal) : Except WCError WriteConcern :=
  match wtimeoutCheck wtimeout [] with
  | Except.error e => Except.error e
  | Except.ok d1 =>
    match jCheck j d1 with
    | Except.error e => Except.error e
    | Except.ok d2 =>
      match fsyncCheck j fsync d2 with
      | Except.error e => Except.error e
      | Except.ok d3 =>
        match wZeroJCheck w j with
        | Except.error e => Except.error e
        | Except.ok _ =>
          match wCheck w d3 true with
          | Except.error e => Except.error e
          | Except.ok (d4, ack) =>
            Except.ok { document := d4, acknowledged := ack, server_default := d4.isEmpty }

/-- The is_server_default property. -/
def WriteConcern.is_server_default (wc : WriteConcern) : Bool :=
  wc.server_default

/-- Lookup of a key in a Python dict (first matching entry). -/
def dictLookup : PyDict → String → Option PyVal
  | [], _ => Option.none
  | (k, v) :: rest, key => if k = key then some v else dictLookup rest key

/-- Python dict equality: equal as mappings (same key set, same value at
each key), regardless of insertion order. -/
def dictEq (a b : PyDict) : Bool :=
  a.all (fun kv => decide (dictLookup b kv.1 = some kv.2)) &&
  b.all (fun kv => decide (dictLookup a kv.1 = some kv.2))

/-- WriteConcern.__eq__ restricted to WriteConcern operands: compares the
documents as Python dicts. -/
def WriteConcern.eq (a b : WriteConcern) : Bool :=
  dictEq a.document b.document

/-- WriteConcern.__ne__ restricted to WriteConcern operands: dict
inequality, the negation of dict equality. -/
def WriteConcern.ne (a b : WriteConcern) : Bool :=
  !(dictEq a.document b.document)

/-- The module-level constant DEFAULT_WRITE_CONCERN = WriteConcern(). -/
def DEFAULT_WRITE_CONCERN : WriteConcern :=
  { document := [], acknowledged := true, server_default := true }

/-- Error-kind classification used to state precedence claims. -/
inductive ErrKind where
  | typeK
  | rangeK
  | configK
  deriving DecidableEq

/-- The kind of a raised error: TypeError, ValueError (range), or
ConfigurationError. -/
def kindOf : WCError → ErrKind
  | WCError.typeError _ => ErrKind.typeK
  | WCError.valueError _ => ErrKind.rangeK
  | WCError.configurationError _ => ErrKind.configK

/-- The error kind of a construction outcome, if it failed. -/
def errKindOf : Except WCError WriteConcern → Option ErrKind
  | Except.error e => some (kindOf e)
  | Except.ok _ => Option.none

/-- Modelled from the spec, section 4.1: the fixed validation order is
wtimeout type, wtimeout range, j type, fsync type, the j-and-fsync conflict,
the w==0-with-j conflict, w range, w type; this function returns the kind of
the earliest violated rule, or none when no rule is violated. -/
def firstViolation (w wtimeout j fsync : PyVal) : Option ErrKind :=
  if wtimeout ≠ PyVal.none ∧ isinstanceInt wtimeout = false then some ErrKind.typeK
  else if wtimeout ≠ PyVal.none ∧ intVal wtimeout < 0 then some ErrKind.rangeK
  else if j ≠ PyVal.none ∧ isinstanceBool j = false then some ErrKind.typeK
  else if fsync ≠ PyVal.none ∧ isinstanceBool fsync = false then some ErrKind.typeK
  else if j = PyVal.bool true ∧ fsync = PyVal.bool true then some ErrKind.configK
  else if pyEqZero w ∧ j = PyVal.bool true then some ErrKind.configK
  else if w ≠ PyVal.none ∧ isinstanceInt w = true ∧ intVal w < 0 then some ErrKind.rangeK
  else if w ≠ PyVal.none ∧ isinstanceInt w = false ∧ isinstanceStr w = false then some ErrKind.typeK
  else Option.none

/-- The document a successful construction is specified to build: exactly the
supplied fields, under canonical keys, in validation order. -/
def suppliedDoc (w wtimeout j fsync : PyVal) : PyDict :=
  (if wtimeout ≠ PyVal.none then [("wtimeout", wtimeout)] else []) ++
    (if j ≠ PyVal.none then [("j", j)] else []) ++
    (if fsync ≠ PyVal.none then [("fsync", fsync)] else []) ++
    (if w ≠ PyVal.none then [("w", w)] else [])

lemma wtimeoutCheck_error (wt : PyVal) (d : PyDict) (e : WCError)
    (h : wtimeoutCheck wt d = Except.error e) :
    (wt ≠ PyVal.none ∧ isinstanceInt wt = false ∧ kindOf e = ErrKind.typeK) ∨
      (wt ≠ PyVal.none ∧ isinstanceInt wt = true ∧ intVal wt < 0 ∧ kindOf e = ErrKind.rangeK) := by
  unfold wtimeoutCheck at h
  split_ifs at h with h1 h2 h3 <;> injection h with he <;> subst he <;> simp_all [kindOf]

lemma wtimeoutCheck_ok (wt : PyVal) (d d' : PyDict) (h : wtimeoutCheck wt d = Except.ok d') :
    d' = d ++ (if wt ≠ PyVal.none then [("wtimeout", wt)] else []) ∧
      (wt ≠ PyVal.none → isinstanceInt wt = true ∧ 0 ≤ intVal wt) := by
  unfold wtimeoutCheck at h
  split_ifs at h with h1 h2 h3 <;> simp_all <;> omega

lemma jCheck_error (j : PyVal) (d : PyDict) (e : WCError)
    (h : jCheck j d = Except.error e) :
    j ≠ PyVal.none ∧ isinstanceBool j = false ∧ kindOf e = ErrKind.typeK := by
  unfold jCheck at h
  split_ifs at h with h1 h2 <;> injection h with he <;> subst he <;> simp_all [kindOf]

lemma jCheck_ok (j : PyVal) (d d' : PyDict) (h : jCheck j d = Except.ok d') :
    d' = d ++ (if j ≠ PyVal.none then [("j", j)] else []) ∧
      (j ≠ PyVal.none → isinstanceBool j = true) := by
  unfold jCheck at h
  split_ifs at h with h1 h2 <;> simp_all

lemma fsyncCheck_error (j fsync : PyVal) (d : PyDict) (e : WCError)
    (h : fsyncCheck j fsync d = Except.error e) :
    (fsync ≠ PyVal.none ∧ isinstanceBool fsync = false ∧ kindOf e = ErrKind.typeK) ∨
      (fsync ≠ PyVal.none ∧ isinstanceBool fsync = true ∧ truthy j = true ∧
        truthy fsync = true ∧ kindOf e = ErrKind.configK) := by
  unfold fsyncCheck at h
  split_ifs at h with h1 h2 h3 <;> injection h with he <;> subst he <;> simp_all [kindOf]

lemma fsyncCheck_ok (j fsync : PyVal) (d d' : PyDict) (h : fsyncCheck j fsync d = Except.ok d') :
    d' = d ++ (if fsync ≠ PyVal.none then [("fsync", fsync)] else []) ∧
      (fsync ≠ PyVal.none →
        isinstanceBool fsync = true ∧ ¬(truthy j = true ∧ truthy fsync = true)) := by
  unfold fsyncCheck at h
  split_ifs at h with h1 h2 h3 <;> simp_all

lemma wZeroJCheck_error (w j : PyVal) (e : WCError)
    (h : wZeroJCheck w j = Except.error e) :
    pyEqZero w = true ∧ j = PyVal.bool true ∧ kindOf e = ErrKind.configK := by
  unfold wZeroJCheck at h
  split_ifs at h with h1 <;> injection h with he <;> subst he <;> simp_all [kindOf]

lemma wZeroJCheck_ok (w j : PyVal) (u : Unit) (h : wZeroJCheck w j = Except.ok u) :
    ¬(pyEqZero w = true ∧ j = PyVal.bool true) := by
  unfold wZeroJCheck at h
  split_ifs at h with h1 <;> simp_all

lemma wCheck_error (w : PyVal) (d : PyDict) (a : Bool) (e : WCError)
    (h : wCheck w d a = Except.error e) :
    (w ≠ PyVal.none ∧ isinstanceInt w = true ∧ intVal w < 0 ∧ kindOf e = ErrKind.rangeK) ∨
      (w ≠ PyVal.none ∧ isinstanceInt w = false ∧ isinstanceStr w = false ∧
        kindOf e = ErrKind.typeK) := by
  unfold wCheck at h
  split_ifs at h with h1 h2 h3 h4 <;> injection h with he <;> subst he <;> simp_all [kindOf]

lemma wCheck_ok (w : PyVal) (d : PyDict) (a : Bool) (d' : PyDict) (a' : Bool)
    (h : wCheck w d a = Except.ok (d', a')) :
    d' = d ++ (if w ≠ PyVal.none then [("w", w)] else []) ∧
      a' = (if w ≠ PyVal.none ∧ isinstanceInt w = true then decide (0 < intVal w) else a) ∧
      (w ≠ PyVal.none → isinstanceInt w = true → 0 ≤ intVal w) ∧
      (w ≠ PyVal.none → isinstanceInt w = true ∨ isinstanceStr w = true) := by
  unfold wCheck at h
  split_ifs at h with h1 h2 h3 h4 <;> simp_all <;> omega

lemma errKind_init_eq (w wtimeout j fsync : PyVal) :
    errKindOf (WriteConcern.init w wtimeout j fsync) = firstViolation w wtimeout j fsync := by
  unfold WriteConcern.init
  cases hwt : wtimeoutCheck wtimeout [] with
  | error e =>
    rcases wtimeoutCheck_error _ _ _ hwt with ⟨h1, h2, hk⟩ | ⟨h1, h2, h3, hk⟩
    · unfold firstViolation
      rw [if_pos ⟨h1, h2⟩]
      simp [errKindOf, hk]
    · unfold firstViolation
      rw [if_neg (by simp [h2]), if_pos ⟨h1, h3⟩]
      simp [errKindOf, hk]
  | ok d1 =>
    obtain ⟨-, hwtp⟩ := wtimeoutCheck_ok _ _ _ hwt
    have hv1 : ¬(wtimeout ≠ PyVal.none ∧ isinstanceInt wtimeout = false) := by
      rintro ⟨ha, hb⟩
      rcases hwtp ha with ⟨hc, -⟩
      rw [hc] at hb
      exact Bool.noConfusion hb
    have hv2 : ¬(wtimeout ≠ PyVal.none ∧ intVal wtimeout < 0) := by
      rintro ⟨ha, hb⟩
      rcases hwtp ha with ⟨-, hc⟩
      omega
    cases hj : jCheck j d1 with
    | error e =>
      obtain ⟨h1, h2, hk⟩ := jCheck_error _ _ _ hj
      unfold firstViolation
      rw [if_neg hv1, if_neg hv2, if_pos ⟨h1, h2⟩]
      simp [errKindOf, hj, hk]
    | ok d2 =>
      obtain ⟨-, hjp⟩ := jCheck_ok _ _ _ hj
      have hv3 : ¬(j ≠ PyVal.none ∧ isinstanceBool j = false) := by
        rintro ⟨ha, hb⟩
        rw [hjp ha] at hb
        exact Bool.noConfusion hb
      cases hf : fsyncCheck j fsync d2 with
      | error e =>
        rcases fsyncCheck_error _ _ _ _ hf with ⟨h1, h2, hk⟩ | ⟨h1, h2, h3, h4, hk⟩
        · unfold firstViolation
          rw [if_neg hv1, if_neg hv2, if_neg hv3, if_pos ⟨h1, h2⟩]
          simp [errKindOf, hj, hf, hk]
        · have hjb : j = PyVal.bool true := by
            by_cases hn : j = PyVal.none
            · rw [hn] at h3
              exact absurd h3 (by simp [truthy])
            · have hb := hjp hn
              cases j <;> simp_all [isinstanceBool, truthy]
          have hfb : fsync = PyVal.bool true := by
            cases fsync <;> simp_all [isinstanceBool, truthy]
          unfold firstViolation
          rw [if_neg hv1, if_neg hv2, if_neg hv3, if_neg (by simp [h2]), if_pos ⟨hjb, hfb⟩]
          simp [errKindOf, hj, hf, hk]
      | ok d3 =>
        obtain ⟨-, hfp⟩ := fsyncCheck_ok _ _ _ _ hf
        have hv4 : ¬(fsync ≠ PyVal.none ∧ isinstanceBool fsync = false) := by
          rintro ⟨ha, hb⟩
          rcases hfp ha with ⟨hc, -⟩
          rw [hc] at hb
          exact Bool.noConfusion hb
        have hv5 : ¬(j = PyVal.bool true ∧ fsync = PyVal.bool true) := by
          rintro ⟨ha, hb⟩
          have hfn : fsync ≠ PyVal.none := by rw [hb]; simp
          rcases hfp hfn with ⟨-, hc⟩
          exact hc ⟨by rw [ha]; rfl, by rw [hb]; rfl⟩
        cases hz : wZeroJCheck w j with
        | error e =>
          obtain ⟨h1, h2, hk⟩ := wZeroJCheck_error _ _ _ hz
          unfold firstViolation
          rw [if_neg hv1, if_neg hv2, if_neg hv3, if_neg hv4, if_neg hv5, if_pos ⟨h1, h2⟩]
          simp [errKindOf, hj, hf, hz, hk]
        | ok u =>
          have hv6 : ¬(pyEqZero w = true ∧ j = PyVal.bool true) := wZeroJCheck_ok _ _ _ hz
          cases hw : wCheck w d3 true with
          | error e =>
            rcases wCheck_error _ _ _ _ hw with ⟨h1, h2, h3, hk⟩ | ⟨h1, h2, h3, hk⟩
            · unfold firstViolation
              rw [if_neg hv1, if_neg hv2, if_neg hv3, if_neg hv4, if_neg hv5, if_neg hv6,
                if_pos ⟨h1, h2, h3⟩]
              simp [errKindOf, hj, hf, hz, hw, hk]
            · unfold firstViolation
              rw [if_neg hv1, if_neg hv2, if_neg hv3, if_neg hv4, if_neg hv5, if_neg hv6,
                if_neg (by simp [h2]), if_pos ⟨h1, h2, h3⟩]
              simp [errKindOf, hj, hf, hz, hw, hk]
          | ok p =>
            obtain ⟨d4, ack⟩ := p
            obtain ⟨-, -, hge, hshape⟩ := wCheck_ok _ _ _ _ _ hw
            have hv7 : ¬(w ≠ PyVal.none ∧ isinstanceInt w = true ∧ intVal w < 0) := by
              rintro ⟨ha, hb, hc⟩
              have := hge ha hb
              omega
            have hv8 : ¬(w ≠ PyVal.none ∧ isinstanceInt w = false ∧ isinstanceStr w = false) := by
              rintro ⟨ha, hb, hc⟩
              rcases hshape ha with hd | hd
              · rw [hd] at hb
                exact Bool.noConfusion hb
              · rw [hd] at hc
                exact Bool.noConfusion hc
            unfold firstViolation
            rw [if_neg hv1, if_neg hv2, if_neg hv3, if_neg hv4, if_neg hv5, if_neg hv6,
              if_neg hv7, if_neg hv8]
            simp [errKindOf, hj, hf, hz, hw]

lemma init_ok_elim (w wtimeout j fsync : PyVal) (wc : WriteConcern)
    (h : WriteConcern.init w wtimeout j fsync = Except.ok wc) :
    wc.document = suppliedDoc w wtimeout j fsync ∧
      wc.acknowledged =
        (if w ≠ PyVal.none ∧ isinstanceInt w = true then decide (0 < intVal w) else true) ∧
      wc.server_default = wc.document.isEmpty ∧
      (w ≠ PyVal.none → isinstanceInt w = true → 0 ≤ intVal w) := by
  unfold WriteConcern.init at h
  cases hwt : wtimeoutCheck wtimeout [] with
  | error e => simp only [hwt] at h; exact absurd h (by simp)
  | ok d1 =>
    simp only [hwt] at h
    cases hj : jCheck j d1 with
    | error e => simp only [hj] at h; exact absurd h (by simp)
    | ok d2 =>
      simp only [hj] at h
      cases hf : fsyncCheck j fsync d2 with
      | error e => simp only [hf] at h; exact absurd h (by simp)
      | ok d3 =>
        simp only [hf] at h
        cases hz : wZeroJCheck w j with
        | error e => simp only [hz] at h; exact absurd h (by simp)
        | ok u =>
          simp only [hz] at h
          cases hw : wCheck w d3 true with
          | error e => simp only [hw] at h; exact absurd h (by simp)
          | ok p =>
            obtain ⟨d4, ack⟩ := p
            simp only [hw] at h
            obtain ⟨hd1, -⟩ := wtimeoutCheck_ok _ _ _ hwt
            obtain ⟨hd2, -⟩ := jCheck_ok _ _ _ hj
            obtain ⟨hd3, -⟩ := fsyncCheck_ok _ _ _ _ hf
            obtain ⟨hd4, hack, hge, -⟩ := wCheck_ok _ _ _ _ _ hw
            injection h with h2
            subst h2
            subst hd4
            subst hd3
            subst hd2
            subst hd1
            refine ⟨?_, ?_, rfl, hge⟩
            · simp [suppliedDoc, List.append_assoc]
            · exact hack

/-- Two dicts are equal as mappings: at every key they agree (same value, or
both absent). -/
def MappingEq (a b : PyDict) : Prop :=
  ∀ k, dictLookup a k = dictLookup b k

lemma dictLookup_mem {d : PyDict} {k : String} {v : PyVal}
    (h : dictLookup d k = some v) : (k, v) ∈ d := by
  induction d with
  | nil => simp [dictLookup] at h
  | cons kv rest ih =>
    obtain ⟨k1, v1⟩ := kv
    by_cases he : k1 = k
    · subst he
      simp [dictLookup] at h
      subst h
      exact List.mem_cons_self _ _
    · simp only [dictLookup, if_neg he] at h
      exact List.mem_cons_of_mem _ (ih h)

lemma nodup_dictLookup {d : PyDict} {k : String} {v : PyVal}
    (hn : (d.map Prod.fst).Nodup) (hm : (k, v) ∈ d) : dictLookup d k = some v := by
  induction d with
  | nil => simp at hm
  | cons kv rest ih =>
    obtain ⟨k1, v1⟩ := kv
    simp only [List.map_cons, List.nodup_cons] at hn
    rcases List.mem_cons.mp hm with he | hm2
    · rw [Prod.mk.injEq] at he
      obtain ⟨hk, hv⟩ := he
      subst hk
      subst hv
      simp [dictLookup]
    · have hne : k1 ≠ k := by
        rintro rfl
        exact hn.1 (List.mem_map.mpr ⟨(k1, v), hm2, rfl⟩)
      simp only [dictLookup, if_neg hne]
      exact ih hn.2 hm2

lemma dictEq_components {a b : PyDict} (h : dictEq a b = true) :
    (∀ kv ∈ a, dictLookup b kv.1 = some kv.2) ∧
      (∀ kv ∈ b, dictLookup a kv.1 = some kv.2) := by
  unfold dictEq at h
  rw [Bool.and_eq_true, List.all_eq_true, List.all_eq_true] at h
  constructor
  · intro kv hkv
    exact of_decide_eq_true (h.1 kv hkv)
  · intro kv hkv
    exact of_decide_eq_true (h.2 kv hkv)

lemma dictEq_of_components {a b : PyDict}
    (h1 : ∀ kv ∈ a, dictLookup b kv.1 = some kv.2)
    (h2 : ∀ kv ∈ b, dictLookup a kv.1 = some kv.2) : dictEq a b = true := by
  unfold dictEq
  rw [Bool.and_eq_true, List.all_eq_true, List.all_eq_true]
  exact ⟨fun kv hkv => decide_eq_true (h1 kv hkv), fun kv hkv => decide_eq_true (h2 kv hkv)⟩

lemma dictEq_iff_mappingEq {a b : PyDict}
    (ha : (a.map Prod.fst).Nodup) (hb : (b.map Prod.fst).Nodup) :
    dictEq a b = true ↔ MappingEq a b := by
  constructor
  · intro h k
    obtain ⟨h1, h2⟩ := dictEq_components h
    cases hal : dictLookup a k with
    | none =>
      cases hbl : dictLookup b k with
      | none => rfl
      | some v =>
        have := h2 (k, v) (dictLookup_mem hbl)
        rw [hal] at this
        exact Option.noConfusion this
    | some v =>
      have := h1 (k, v) (dictLookup_mem hal)
      rw [this]
  · intro m
    refine dictEq_of_components (fun kv hkv => ?_) (fun kv hkv => ?_)
    · rw [← m kv.1]
      exact nodup_dictLookup ha hkv
    · rw [m kv.1]
      exact nodup_dictLookup hb hkv

lemma dictEq_symm (a b : PyDict) : dictEq a b = dictEq b a := by
  unfold dictEq
  rw [Bool.and_comm]

lemma dictEq_trans {a b c : PyDict} (hab : dictEq a b = true) (hbc : dictEq b c = true) :
    dictEq a c = true := by
  obtain ⟨hab1, hab2⟩ := dictEq_components hab
  obtain ⟨hbc1, hbc2⟩ := dictEq_components hbc
  refine dictEq_of_components (fun kv hkv => ?_) (fun kv hkv => ?_)
  · exact hbc1 (kv.1, kv.2) (dictLookup_mem (hab1 kv hkv))
  · exact hab2 (kv.1, kv.2) (dictLookup_mem (hbc2 kv hkv))

lemma suppliedDoc_keys_nodup (w wtimeout j fsync : PyVal) :
    ((suppliedDoc w wtimeout j fsync).map Prod.fst).Nodup := by
  unfold suppliedDoc
  split_ifs <;> simp_all <;> decide

/-- A heap of Python dict objects, addressed by allocation index. Used to
state aliasing and mutation facts about the document property. -/
structure Heap where
  dicts : List PyDict

/-- Dereference a dict object. -/
def Heap.get (h : Heap) (r : Nat) : PyDict :=
  h.dicts.getD r []

/-- Allocate a fresh dict object, returning its reference. -/
def Heap.alloc (h : Heap) (d : PyDict) : Nat × Heap :=
  (h.dicts.length, Heap.mk (h.dicts ++ [d]))

/-- Overwrite the dict object at a reference. -/
def Heap.setRef (h : Heap) (r : Nat) (d : PyDict) : Heap :=
  Heap.mk (h.dicts.set r d)

/-- Python dict item assignment on an association list: replace the value of
an existing key or append a new entry. -/
def assocSet : PyDict → String → PyVal → PyDict
  | [], k, v => [(k, v)]
  | (k1, v1) :: rest, k, v =>
    if k1 = k then (k, v) :: rest else (k1, v1) :: assocSet rest k v

/-- Mutate the dict stored at reference r: d[k] = v. -/
def dictSetItem (h : Heap) (r : Nat) (k : String) (v : PyVal) : Heap :=
  h.setRef r (assocSet (h.get r) k v)

/-- The document property as a heap operation: self.__document.copy()
allocates a fresh dict holding the same entries as the internal one. -/
def documentCall (h : Heap) (internal : Nat) : Nat × Heap :=
  h.alloc (h.get internal)

lemma getD_append_right_gen (l m : List PyDict) (i : Nat) :
    (l ++ m).getD (l.length + i) [] = m.getD i [] := by
  induction l with
  | nil => simp
  | cons a l ih => simpa [Nat.succ_add] using ih

lemma set_append_right_gen (l m : List PyDict) (i : Nat) (x : PyDict) :
    (l ++ m).set (l.length + i) x = l ++ m.set i x := by
  induction l with
  | nil => simp
  | cons a l ih => simp [Nat.succ_add, ih]

/-- The claim-side shape (type-error) conditions: some supplied value has the
wrong shape. -/
def shapeViolation (w wtimeout j fsync : PyVal) : Prop :=
  (wtimeout ≠ PyVal.none ∧ isinstanceInt wtimeout = false) ∨
    (j ≠ PyVal.none ∧ isinstanceBool j = false) ∨
    (fsync ≠ PyVal.none ∧ isinstanceBool fsync = false) ∨
    (w ≠ PyVal.none ∧ isinstanceInt w = false ∧ isinstanceStr w = false)

/-- The claim-side range (value-error) conditions: a supplied numeric value is
negative. -/
def rangeViolation (w wtimeout : PyVal) : Prop :=
  (wtimeout ≠ PyVal.none ∧ isinstanceInt wtimeout = true ∧ intVal wtimeout < 0) ∨
    (w ≠ PyVal.none ∧ isinstanceInt w = true ∧ intVal w < 0)

/-- The claim-side configuration conditions: mutually contradictory supplied
values. -/
def configViolation (w j fsync : PyVal) : Prop :=
  (j = PyVal.bool true ∧ fsync = PyVal.bool true) ∨
    (pyEqZero w = true ∧ j = PyVal.bool true)

lemma intVal_neg_isinstanceInt (x : PyVal) (h : intVal x < 0) : isinstanceInt x = true := by
  cases x <;> first | rfl | simp [intVal] at h

/-- C3: validation is fail-fast in the fixed order wtimeout checks, j checks,
fsync checks (including the j-and-fsync conflict), the w==0-with-j conflict,
then w checks: the construction outcome carries exactly the error kind of the
earliest violated rule in that order (and no rule violated means a successful
construction, so no instance is observable after a failure). -/
theorem validation_fail_fast_order (w wtimeout j fsync : PyVal) :
    errKindOf (WriteConcern.init w wtimeout j fsync) = firstViolation w wtimeout j fsync :=
  errKind_init_eq w wtimeout j fsync

/-- C4: for every successful construction, the document contains exactly the
explicitly supplied fields, under the canonical keys and with the supplied
values unchanged, in the validation order wtimeout, j, fsync, w. -/
theorem document_exactly_supplied (w wtimeout j fsync : PyVal) (wc : WriteConcern)
    (h : WriteConcern.init w wtimeout j fsync = Except.ok wc) :
    wc.document = suppliedDoc w wtimeout j fsync :=
  (init_ok_elim w wtimeout j fsync wc h).1

/-- Witness for C4: WriteConcern(w=3, wtimeout=5000) builds the document
with exactly the two supplied entries, in validation order. -/
theorem document_exactly_supplied_witness :
    WriteConcern.init (PyVal.int 3) (PyVal.int 5000) PyVal.none PyVal.none =
      Except.ok { document := [("wtimeout", PyVal.int 5000), ("w", PyVal.int 3)],
                  acknowledged := true, server_default := false } ∧
      ({ document := [("wtimeout", PyVal.int 5000), ("w", PyVal.int 3)],
         acknowledged := true, server_default := false } : WriteConcern).document =
        suppliedDoc (PyVal.int 3) (PyVal.int 5000) PyVal.none PyVal.none :=
  ⟨rfl, document_exactly_supplied (PyVal.int 3) (PyVal.int 5000) PyVal.none PyVal.none _ rfl⟩

/-- C5: for every constructed WriteConcern, is_server_default is true exactly
when the document is empty. -/
theorem server_default_iff_empty_document (w wtimeout j fsync : PyVal) (wc : WriteConcern)
    (h : WriteConcern.init w wtimeout j fsync = Except.ok wc) :
    wc.is_server_default = true ↔ wc.document = [] := by
  obtain ⟨-, -, hsd, -⟩ := init_ok_elim w wtimeout j fsync wc h
  unfold WriteConcern.is_server_default
  rw [hsd]
  cases wc.document <;> simp

/-- Witness for C5: the shared default constant is a construction with no
arguments, and the equivalence holds on it. -/
theorem server_default_iff_empty_witness :
    WriteConcern.init PyVal.none PyVal.none PyVal.none PyVal.none =
      Except.ok DEFAULT_WRITE_CONCERN ∧
      (DEFAULT_WRITE_CONCERN.is_server_default = true ↔ DEFAULT_WRITE_CONCERN.document = []) :=
  ⟨rfl, server_default_iff_empty_document PyVal.none PyVal.none PyVal.none PyVal.none
    DEFAULT_WRITE_CONCERN rfl⟩

/-- C9: the no-argument construction and the shared default constant have an
empty document, acknowledged true, and is_server_default true. -/
theorem default_write_concern_properties :
    WriteConcern.init PyVal.none PyVal.none PyVal.none PyVal.none =
      Except.ok DEFAULT_WRITE_CONCERN ∧
      DEFAULT_WRITE_CONCERN.document = [] ∧
      DEFAULT_WRITE_CONCERN.acknowledged = true ∧
      DEFAULT_WRITE_CONCERN.is_server_default = true :=
  ⟨rfl, rfl, rfl, rfl⟩

/-- C10: boolean inputs pass the isinstance int checks and the value-equality
w==0 check: wtimeout=True is recorded; w=False succeeds unacknowledged with
document containing w: False; and w=False with j=True raises the
configuration-error kind, not a type-error kind. -/
theorem bool_inputs_pass_int_checks :
    WriteConcern.init PyVal.none (PyVal.bool true) PyVal.none PyVal.none =
      Except.ok { document := [("wtimeout", PyVal.bool true)],
                  acknowledged := true, server_default := false } ∧
      WriteConcern.init (PyVal.bool false) PyVal.none PyVal.none PyVal.none =
        Except.ok { document := [("w", PyVal.bool false)],
                    acknowledged := false, server_default := false } ∧
      WriteConcern.init (PyVal.bool false) PyVal.none (PyVal.bool true) PyVal.none =
        Except.error (WCError.configurationError "Cannot set w to 0 and j to True") ∧
      errKindOf (WriteConcern.init (PyVal.bool false) PyVal.none (PyVal.bool true) PyVal.none) =
        some ErrKind.configK :=
  ⟨rfl, rfl, rfl, rfl⟩

/-- Counterexample to C1 as stated: WriteConcern(w=False) succeeds with
acknowledged false, yet False is not the integer 0 (it is a bool). -/
theorem acknowledged_bool_false_counterexample :
    WriteConcern.init (PyVal.bool false) PyVal.none PyVal.none PyVal.none =
      Except.ok { document := [("w", PyVal.bool false)],
                  acknowledged := false, server_default := false } ∧
      PyVal.bool false ≠ PyVal.int 0 :=
  ⟨rfl, by decide⟩

/-- C1 as amended: for every successful construction, acknowledged is false
exactly when w was supplied as the integer 0 or as the boolean False (which
Python treats as the integer 0); it is true in every other case. -/
theorem acknowledged_false_iff_w_zero (w wtimeout j fsync : PyVal) (wc : WriteConcern)
    (h : WriteConcern.init w wtimeout j fsync = Except.ok wc) :
    wc.acknowledged = false ↔ (w = PyVal.int 0 ∨ w = PyVal.bool false) := by
  obtain ⟨-, hack, -, hge⟩ := init_ok_elim w wtimeout j fsync wc h
  rw [hack]
  cases w with
  | none => simp
  | bool b => cases b <;> simp [isinstanceInt, intVal]
  | int n =>
    have h0 : 0 ≤ n := by simpa [intVal] using hge (by simp) rfl
    simp [isinstanceInt, intVal]
    omega
  | str s => simp [isinstanceInt]
  | other => simp [isinstanceInt]

/-- Witness for the amended C1: WriteConcern(w=0) is unacknowledged. -/
theorem acknowledged_false_iff_w_zero_witness :
    WriteConcern.init (PyVal.int 0) PyVal.none PyVal.none PyVal.none =
      Except.ok { document := [("w", PyVal.int 0)],
                  acknowledged := false, server_default := false } ∧
      ({ document := [("w", PyVal.int 0)], acknowledged := false,
         server_default := false } : WriteConcern).acknowledged = false :=
  ⟨rfl, (acknowledged_false_iff_w_zero (PyVal.int 0) PyVal.none PyVal.none PyVal.none _
    rfl).mpr (Or.inl rfl)⟩

/-- Counterexample to C2 as stated: with j=True and fsync=True but an
ill-typed wtimeout, the conflict condition holds yet construction fails with
the type-error kind, not the configuration-error kind. -/
theorem configError_precedence_counterexample :
    errKindOf (WriteConcern.init PyVal.none (PyVal.str "x") (PyVal.bool true)
      (PyVal.bool true)) = some ErrKind.typeK ∧
      ErrKind.typeK ≠ ErrKind.configK :=
  ⟨rfl, by decide⟩

/-- C2 as amended: provided wtimeout is absent or a non-negative integer and
fsync is absent or a boolean, construction fails with the configuration-error
kind exactly when j and fsync are both supplied as True or w equals 0 (by
Python value equality) with j supplied as True; and in particular
WriteConcern(w=0, fsync=True) constructs successfully. -/
theorem configError_iff_conflict (w wtimeout j fsync : PyVal)
    (hwt : wtimeout = PyVal.none ∨ (isinstanceInt wtimeout = true ∧ 0 ≤ intVal wtimeout))
    (hf : fsync = PyVal.none ∨ isinstanceBool fsync = true) :
    (errKindOf (WriteConcern.init w wtimeout j fsync) = some ErrKind.configK ↔
      ((j = PyVal.bool true ∧ fsync = PyVal.bool true) ∨
        (pyEqZero w = true ∧ j = PyVal.bool true))) ∧
      WriteConcern.init (PyVal.int 0) PyVal.none PyVal.none (PyVal.bool true) =
        Except.ok { document := [("fsync", PyVal.bool true), ("w", PyVal.int 0)],
                    acknowledged := false, server_default := false } := by
  refine ⟨?_, rfl⟩
  rw [errKind_init_eq]
  unfold firstViolation
  split_ifs with h1 h2 h3 h4 h5 h6 h7 h8
  · rcases hwt with he | ⟨hi, -⟩
    · exact absurd he h1.1
    · rw [hi] at h1
      exact absurd h1.2 (by simp)
  · rcases hwt with he | ⟨-, hge⟩
    · exact absurd he h2.1
    · omega
  · constructor
    · intro hx
      exact absurd hx (by simp)
    · rintro (⟨rfl, -⟩ | ⟨-, rfl⟩) <;> simp [isinstanceBool] at h3
  · rcases hf with he | hb
    · exact absurd he h4.1
    · rw [hb] at h4
      exact absurd h4.2 (by simp)
  · simp [h5.1, h5.2]
  · simp [h6.1, h6.2]
  · exact iff_of_false (by decide) (fun hx => hx.elim (fun hA => h5 hA) (fun hB => h6 hB))
  · exact iff_of_false (by decide) (fun hx => hx.elim (fun hA => h5 hA) (fun hB => h6 hB))
  · exact iff_of_false (by decide) (fun hx => hx.elim (fun hA => h5 hA) (fun hB => h6 hB))

/-- Witness for the amended C2: j=True with fsync=True (and valid other
inputs) fails with the configuration-error kind. -/
theorem configError_iff_conflict_witness :
    errKindOf (WriteConcern.init PyVal.none PyVal.none (PyVal.bool true)
      (PyVal.bool true)) = some ErrKind.configK :=
  (configError_iff_conflict PyVal.none PyVal.none (PyVal.bool true) (PyVal.bool true)
    (Or.inl rfl) (Or.inr rfl)).1.mpr (Or.inl ⟨rfl, rfl⟩)

/-- Counterexample to C6 as stated: wtimeout=-1 with an ill-shaped j satisfies
a shape condition, yet the failure is the range-error kind (wtimeout is
checked first), so the type-error kind does not occur exactly when a shape
condition holds. -/
theorem error_kind_exactness_counterexample :
    WriteConcern.init PyVal.none (PyVal.int (-1)) (PyVal.str "x") PyVal.none =
      Except.error (WCError.valueError "wtimeout cannot be less than 0") ∧
      shapeViolation PyVal.none (PyVal.int (-1)) (PyVal.str "x") PyVal.none ∧
      kindOf (WCError.valueError "wtimeout cannot be less than 0") ≠ ErrKind.typeK :=
  ⟨rfl, Or.inr (Or.inl ⟨by decide, rfl⟩), by decide⟩

set_option maxHeartbeats 1600000 in
/-- C6 as amended: a type-error failure only occurs when a supplied value has
the wrong shape; a range-error failure only occurs when a supplied numeric
value is negative; and when no shape, range, or configuration condition
holds, construction succeeds (so these are the only failure conditions). -/
theorem error_kind_classification (w wtimeout j fsync : PyVal) :
    (∀ m, WriteConcern.init w wtimeout j fsync = Except.error (WCError.typeError m) →
      shapeViolation w wtimeout j fsync) ∧
      (∀ m, WriteConcern.init w wtimeout j fsync = Except.error (WCError.valueError m) →
        rangeViolation w wtimeout) ∧
      (¬shapeViolation w wtimeout j fsync → ¬rangeViolation w wtimeout →
        ¬configViolation w j fsync →
        ∃ wc, WriteConcern.init w wtimeout j fsync = Except.ok wc) := by
  refine ⟨?_, ?_, ?_⟩
  · intro m hm
    have hkey : firstViolation w wtimeout j fsync = some ErrKind.typeK := by
      rw [← errKind_init_eq, hm]
      rfl
    unfold shapeViolation
    unfold firstViolation at hkey
    split_ifs at hkey with h1 h2 h3 h4 h5 h6 h7 h8 <;>
      first
        | exact absurd hkey (by decide)
        | exact Or.inl h1
        | exact Or.inr (Or.inl h3)
        | exact Or.inr (Or.inr (Or.inl h4))
        | exact Or.inr (Or.inr (Or.inr h8))
  · intro m hm
    have hkey : firstViolation w wtimeout j fsync = some ErrKind.rangeK := by
      rw [← errKind_init_eq, hm]
      rfl
    unfold rangeViolation
    unfold firstViolation at hkey
    split_ifs at hkey with h1 h2 h3 h4 h5 h6 h7 h8 <;>
      first
        | exact absurd hkey (by decide)
        | exact Or.inl ⟨h2.1, intVal_neg_isinstanceInt _ h2.2, h2.2⟩
        | exact Or.inr h7
  · intro hs hr hc
    unfold shapeViolation at hs
    unfold rangeViolation at hr
    unfold configViolation at hc
    have hfv : firstViolation w wtimeout j fsync = Option.none := by
      unfold firstViolation
      split_ifs with h1 h2 h3 h4 h5 h6 h7 h8 <;>
        first
          | rfl
          | exact (hs (Or.inl h1)).elim
          | exact (hr (Or.inl ⟨h2.1, intVal_neg_isinstanceInt _ h2.2, h2.2⟩)).elim
          | exact (hs (Or.inr (Or.inl h3))).elim
          | exact (hs (Or.inr (Or.inr (Or.inl h4)))).elim
          | exact (hc (Or.inl h5)).elim
          | exact (hc (Or.inr h6)).elim
          | exact (hr (Or.inr h7)).elim
          | exact (hs (Or.inr (Or.inr (Or.inr h8)))).elim
    have hkey := errKind_init_eq w wtimeout j fsync
    rw [hfv] at hkey
    cases hi : WriteConcern.init w wtimeout j fsync with
    | error e =>
      rw [hi] at hkey
      exact absurd hkey (by simp [errKindOf])
    | ok wc => exact ⟨wc, rfl⟩

/-- Witness for the amended C6: a non-boolean j is a shape violation, and the
failure indeed carries the type-error kind. -/
theorem error_kind_classification_witness :
    shapeViolation PyVal.none PyVal.none (PyVal.str "x") PyVal.none :=
  (error_kind_classification PyVal.none PyVal.none (PyVal.str "x") PyVal.none).1
    "j must be True or False" rfl

/-- C7: on constructed instances, equality holds exactly when the two
documents are equal as mappings; it is reflexive, symmetric, and transitive;
and inequality is its exact negation. -/
theorem eq_mirrors_document_mapping
    (w1 wt1 j1 f1 w2 wt2 j2 f2 w3 wt3 j3 f3 : PyVal) (a b c : WriteConcern)
    (ha : WriteConcern.init w1 wt1 j1 f1 = Except.ok a)
    (hb : WriteConcern.init w2 wt2 j2 f2 = Except.ok b)
    (hc : WriteConcern.init w3 wt3 j3 f3 = Except.ok c) :
    (WriteConcern.eq a b = true ↔ MappingEq a.document b.document) ∧
      WriteConcern.eq a a = true ∧
      WriteConcern.eq a b = WriteConcern.eq b a ∧
      (WriteConcern.eq a b = true → WriteConcern.eq b c = true →
        WriteConcern.eq a c = true) ∧
      WriteConcern.ne a b = !(WriteConcern.eq a b) := by
  have hna : (a.document.map Prod.fst).Nodup := by
    rw [(init_ok_elim _ _ _ _ _ ha).1]
    exact suppliedDoc_keys_nodup _ _ _ _
  have hnb : (b.document.map Prod.fst).Nodup := by
    rw [(init_ok_elim _ _ _ _ _ hb).1]
    exact suppliedDoc_keys_nodup _ _ _ _
  refine ⟨dictEq_iff_mappingEq hna hnb, ?_, dictEq_symm _ _,
    fun h1 h2 => dictEq_trans h1 h2, rfl⟩
  exact (dictEq_iff_mappingEq hna hna).mpr (fun k => rfl)

/-- Witness for C7: the default instance is equal to itself and inequality is
the negation of equality on it. -/
theorem eq_mirrors_document_mapping_witness :
    WriteConcern.eq DEFAULT_WRITE_CONCERN DEFAULT_WRITE_CONCERN = true ∧
      WriteConcern.ne DEFAULT_WRITE_CONCERN DEFAULT_WRITE_CONCERN =
        !(WriteConcern.eq DEFAULT_WRITE_CONCERN DEFAULT_WRITE_CONCERN) := by
  have h := eq_mirrors_document_mapping PyVal.none PyVal.none PyVal.none PyVal.none
    PyVal.none PyVal.none PyVal.none PyVal.none PyVal.none PyVal.none PyVal.none
    PyVal.none DEFAULT_WRITE_CONCERN DEFAULT_WRITE_CONCERN DEFAULT_WRITE_CONCERN
    rfl rfl rfl
  exact ⟨h.2.1, h.2.2.2.2⟩

/-- C8: two calls of the document property return fresh dict objects,
distinct from the internal one and from each other, both holding the same
entries as the internal document; mutating the first returned copy changes
neither the internal document nor the other copy. -/
theorem document_returns_independent_copy (wc : WriteConcern) (h0 : Heap)
    (k : String) (v : PyVal) :
    let a := h0.alloc wc.document
    let c1 := documentCall a.2 a.1
    let c2 := documentCall c1.2 a.1
    let m := dictSetItem c2.2 c1.1 k v
    c2.2.get c1.1 = wc.document ∧
      c2.2.get c2.1 = wc.document ∧
      c1.1 ≠ a.1 ∧ c2.1 ≠ a.1 ∧ c2.1 ≠ c1.1 ∧
      m.get a.1 = wc.document ∧
      m.get c2.1 = wc.document := by
  dsimp only [documentCall, Heap.alloc, Heap.get, Heap.setRef, dictSetItem]
  have e0 : (h0.dicts ++ [wc.document]).getD h0.dicts.length [] = wc.document := by
    simpa using getD_append_right_gen h0.dicts [wc.document] 0
  rw [e0]
  have e1 : (h0.dicts ++ [wc.document] ++ [wc.document]).getD h0.dicts.length [] =
      wc.document := by
    rw [List.append_assoc]
    simpa using getD_append_right_gen h0.dicts [wc.document, wc.document] 0
  rw [e1]
  simp only [List.append_assoc, List.singleton_append, List.cons_append, List.nil_append,
    List.length_append, List.length_cons, List.length_nil, Nat.zero_add, Nat.add_zero]
  constructor
  · simpa using getD_append_right_gen h0.dicts
      [wc.document, wc.document, wc.document] 1
  constructor
  · simpa using getD_append_right_gen h0.dicts
      [wc.document, wc.document, wc.document] 2
  constructor
  · omega
  constructor
  · omega
  constructor
  · omega
  have e2 : (h0.dicts ++ [wc.document, wc.document, wc.document]).getD
      (h0.dicts.length + 1) [] = wc.document := by
    simpa using getD_append_right_gen h0.dicts
      [wc.document, wc.document, wc.document] 1
  rw [e2]
  have e3 : (h0.dicts ++ [wc.document, wc.document, wc.document]).set
      (h0.dicts.length + 1) (assocSet wc.document k v) =
      h0.dicts ++ [wc.document, assocSet wc.document k v, wc.document] := by
    simpa using set_append_right_gen h0.dicts
      [wc.document, wc.document, wc.document] 1 (assocSet wc.document k v)
  rw [e3]
  constructor
  · simpa using getD_append_right_gen h0.dicts
      [wc.document, assocSet wc.document k v, wc.document] 0
  · simpa using getD_append_right_gen h0.dicts
      [wc.document, assocSet wc.document k v, wc.document] 2
